import Mathlib

/-!
Verification of the batching / texture-lifecycle / transform core of a 2D
scene-graph renderer, as a shallow embedding in Lean 4.

JavaScript numbers are modelled as exact rationals: every arithmetic
operation the embedded code performs on the inputs appearing in the claims
(addition, multiplication, comparison at small integer values) is exact in
IEEE double precision, so the rational model agrees with the source on
those inputs.  Values that can be the IEEE infinities (the cleared bounds
of a bounds builder) are modelled by an explicit three-case type `JsNum`.
32-bit machine words written through `Uint32Array` views are modelled as
`Nat` with explicit reduction modulo `2 ^ 32` where the source can wrap.
Methods that can throw (dereference of a nulled field) return `Except`.
-/

namespace PixiProof

/-- A 2x3 affine matrix, as in `Matrix` of the source: columns
`(a, b)`, `(c, d)` and translation `(tx, ty)`. -/
structure Matrix where
  a : ℚ
  b : ℚ
  c : ℚ
  d : ℚ
  tx : ℚ
  ty : ℚ
deriving DecidableEq, Repr

/-- The identity matrix, the initial value of `new Matrix()`. -/
def Matrix.identity : Matrix :=
  { a := 1, b := 0, c := 0, d := 1, tx := 0, ty := 0 }

/-- A JavaScript number that may be one of the IEEE infinities, as stored
in the min/max fields of `BoundsBuilder` (which are initialised to
`Infinity` / `-Infinity`). -/
inductive JsNum where
  | negInf : JsNum
  | num : ℚ → JsNum
  | posInf : JsNum
deriving DecidableEq, Repr

/-- The JavaScript `<` comparison restricted to the shapes that occur in
`BoundsBuilder`: the left operand is always a finite number there. -/
def JsNum.ltNum (x : ℚ) : JsNum → Bool
  | JsNum.negInf => false
  | JsNum.num y => decide (x < y)
  | JsNum.posInf => true

/-- The JavaScript `>` comparison with a finite left operand. -/
def JsNum.gtNum (x : ℚ) : JsNum → Bool
  | JsNum.negInf => true
  | JsNum.num y => decide (x > y)
  | JsNum.posInf => false

/-- The JavaScript expression `x < m ? x : m` used by `BoundsBuilder` to
accumulate a minimum. -/
def JsNum.minUpd (x : ℚ) (m : JsNum) : JsNum :=
  if JsNum.ltNum x m then JsNum.num x else m

/-- The JavaScript expression `x > m ? x : m` used by `BoundsBuilder` to
accumulate a maximum. -/
def JsNum.maxUpd (x : ℚ) (m : JsNum) : JsNum :=
  if JsNum.gtNum x m then JsNum.num x else m

/-- State of `TransformBase`: the cache flag, the two matrices, the id
counters and the decomposed transform fields that feed the local matrix.
Observable points are modelled as plain pairs; `_worldID` counts world
recompositions, `_parentID` can also hold the sentinel `-1`. -/
structure TransformBase where
  cache : Bool
  worldTransform : Matrix
  localTransform : Matrix
  _worldID : ℕ
  _parentID : ℤ
  position : ℚ × ℚ
  scale : ℚ × ℚ
  pivot : ℚ × ℚ
  _cx : ℚ
  _sx : ℚ
  _cy : ℚ
  _sy : ℚ
  _localID : ℕ
  _currentLocalID : ℕ
deriving DecidableEq, Repr

/-- The state produced by `new TransformBase(cache)`: identity matrices,
zero ids, unit scale, zero rotation and skew (so `_cx = 1`, `_sx = 0`,
`_cy = 0`, `_sy = 1`). -/
def TransformBase.new (cache : Bool) : TransformBase :=
  { cache := cache
    worldTransform := Matrix.identity
    localTransform := Matrix.identity
    _worldID := 0
    _parentID := 0
    position := (0, 0)
    scale := (1, 1)
    pivot := (0, 0)
    _cx := 1
    _sx := 0
    _cy := 0
    _sy := 1
    _localID := 0
    _currentLocalID := 0 }

/-- First half of `TransformBase.updateTransform`: recompute the local
matrix from the decomposed fields when the cache is off or `_localID`
moved past `_currentLocalID`; sets `_parentID` to `-1` to force the world
step. -/
def TransformBase.updateLocalStep (t : TransformBase) : TransformBase :=
  if t.cache = false ∨ t._localID ≠ t._currentLocalID then
    let la := t._cx * t.scale.1
    let lb := t._sx * t.scale.1
    let lc := t._cy * t.scale.2
    let ld := t._sy * t.scale.2
    { t with
      localTransform :=
        { a := la, b := lb, c := lc, d := ld
          tx := t.position.1 - ((t.pivot.1 * la) + (t.pivot.2 * lc))
          ty := t.position.2 - ((t.pivot.1 * lb) + (t.pivot.2 * ld)) }
      _currentLocalID := t._localID
      _parentID := -1 }
  else t

/-- Concatenation of the local matrix with the parent world matrix, the
exact arithmetic of the second half of `updateTransform`. -/
def Matrix.concatWorld (lt pt : Matrix) : Matrix :=
  { a := (lt.a * pt.a) + (lt.b * pt.c)
    b := (lt.a * pt.b) + (lt.b * pt.d)
    c := (lt.c * pt.a) + (lt.d * pt.c)
    d := (lt.c * pt.b) + (lt.d * pt.d)
    tx := (lt.tx * pt.a) + (lt.ty * pt.c) + pt.tx
    ty := (lt.tx * pt.b) + (lt.ty * pt.d) + pt.ty }

/-- The source method `TransformBase.updateTransform(parentTransform)`:
conditionally rebuild the local matrix, then conditionally recompose the
world matrix with the parent world matrix, record the parent world id and
bump `_worldID`. -/
def TransformBase.updateTransform (t0 : TransformBase) (parent : TransformBase) :
    TransformBase :=
  let t := t0.updateLocalStep
  if t.cache = false ∨ t._parentID ≠ (parent._worldID : ℤ) then
    { t with
      worldTransform := Matrix.concatWorld t.localTransform parent.worldTransform
      _parentID := (parent._worldID : ℤ)
      _worldID := t._worldID + 1 }
  else t

/-- State of `BoundsBuilder`: an axis-aligned box whose fields start at
the IEEE infinities when cleared. -/
structure BoundsBuilder where
  minX : JsNum
  minY : JsNum
  maxX : JsNum
  maxY : JsNum
deriving DecidableEq, Repr

/-- The state after `new BoundsBuilder()` or `clear()`. -/
def BoundsBuilder.cleared : BoundsBuilder :=
  { minX := JsNum.posInf, minY := JsNum.posInf
    maxX := JsNum.negInf, maxY := JsNum.negInf }

/-- Accumulate one transformed point into the running min/max fields, the
repeated block of `addFrame`. -/
def BoundsBuilder.accum (b : BoundsBuilder) (x y : ℚ) : BoundsBuilder :=
  { minX := JsNum.minUpd x b.minX
    minY := JsNum.minUpd y b.minY
    maxX := JsNum.maxUpd x b.maxX
    maxY := JsNum.maxUpd y b.maxY }

/-- The source method `BoundsBuilder.addFrame(transform, x0, y0, x1, y1)`:
transform the four corners of the frame by the world matrix of
`transform` and accumulate each into the box, in source order. -/
def BoundsBuilder.addFrame (bnd : BoundsBuilder) (transform : TransformBase)
    (x0 y0 x1 y1 : ℚ) : BoundsBuilder :=
  let m := transform.worldTransform
  let b1 := bnd.accum (m.a * x0 + m.c * y0 + m.tx) (m.b * x0 + m.d * y0 + m.ty)
  let b2 := b1.accum (m.a * x1 + m.c * y0 + m.tx) (m.b * x1 + m.d * y0 + m.ty)
  let b3 := b2.accum (m.a * x0 + m.c * y1 + m.tx) (m.b * x0 + m.d * y1 + m.ty)
  b3.accum (m.a * x1 + m.c * y1 + m.tx) (m.b * x1 + m.d * y1 + m.ty)

/-- A JavaScript runtime error: dereferencing a field that has been set
to `null`. -/
inductive JsError where
  | nullDeref : JsError
deriving DecidableEq, Repr

/-- Dereference a nullable field: a method call on `null` throws. -/
def deref : Option α → Except JsError α
  | none => Except.error JsError.nullDeref
  | some a => Except.ok a

/-- State of `Resource` (base texture resource): internal size, the
`destroyed` flag and the two mini-runners `onResize` / `onUpdate`, each
modelled as the list of bound listener ids and nullable because `destroy`
sets them to `null`. -/
structure Resource where
  _width : ℚ
  _height : ℚ
  destroyed : Bool
  onResize : Option (List ℕ)
  onUpdate : Option (List ℕ)
deriving DecidableEq, Repr

/-- The state after `new Resource(width, height)`. -/
def Resource.new (width height : ℚ) : Resource :=
  { _width := width, _height := height, destroyed := false
    onResize := some [], onUpdate := some [] }

/-- The getter `Resource.valid`: `!!this._width && !!this._height`. -/
def Resource.valid (r : Resource) : Bool :=
  decide (r._width ≠ 0) && decide (r._height ≠ 0)

/-- The source method `Resource.resize(width, height)`: when either
dimension changed, store the new size and run the `onResize` runner,
notifying every bound listener of the new size. -/
def Resource.resize (r : Resource) (width height : ℚ) :
    Except JsError (Resource × List (ℕ × ℚ × ℚ)) :=
  if width ≠ r._width ∨ height ≠ r._height then do
    let listeners ← deref r.onResize
    Except.ok ({ r with _width := width, _height := height },
      listeners.map fun id => (id, width, height))
  else Except.ok (r, [])

/-- The source method `Resource.update()`: when not destroyed, run the
`onUpdate` runner; returns the ids of the listeners notified. -/
def Resource.update (r : Resource) : Except JsError (List ℕ) :=
  if !r.destroyed then do
    let listeners ← deref r.onUpdate
    Except.ok listeners
  else Except.ok []

/-- The source method `Resource.destroy()`: `removeAll` on each runner
(throwing if the runner is already `null`), null the runners, set the
`destroyed` flag.  Note the source never checks `destroyed` before
dereferencing the runners. -/
def Resource.destroy (r : Resource) : Except JsError Resource := do
  let _ ← deref r.onResize
  let _ ← deref r.onUpdate
  Except.ok { r with onResize := none, onUpdate := none, destroyed := true }

/-- Events emitted by a `BaseTexture` (the `EventEmitter` side). -/
inductive TexEvent where
  | loaded : TexEvent
  | update : TexEvent
  | dispose : TexEvent
deriving DecidableEq, Repr

/-- Truncation toward zero of a rational, the first step of the
JavaScript `ToInt32` conversion. -/
def jsTrunc (q : ℚ) : ℤ :=
  q.num.tdiv q.den

/-- The JavaScript `ToInt32` conversion: truncate, wrap modulo `2 ^ 32`,
reinterpret as a signed 32-bit value. -/
def jsToInt32 (q : ℚ) : ℤ :=
  let u := (jsTrunc q) % (2 ^ 32)
  if u < 2 ^ 31 then u else u - 2 ^ 32

/-- The `bit-twiddle` helper `isPow2(v)`: `!(v & (v - 1)) && !!v` on the
`ToInt32` image of `v`. -/
def isPow2 (q : ℚ) : Bool :=
  let v := jsToInt32 q
  decide (Int.land v (v - 1) = 0) && decide (v ≠ 0)

/-- State of `BaseTexture`, restricted to the fields the embedded methods
read or write.  The resource slot is modelled only as absent (`null`),
matching construction with `resource = null`; style-only fields
(`scaleMode`, `wrapMode`, ...) that no embedded method observes are
omitted. -/
structure BaseTexture where
  width : ℚ
  height : ℚ
  resolution : ℚ
  isPowerOfTwo : Bool
  valid : Bool
  dirtyId : ℕ
  dirtyStyleId : ℕ
  destroyed : Bool
deriving DecidableEq, Repr

/-- The getter `BaseTexture.realWidth`: `width * resolution`. -/
def BaseTexture.realWidth (t : BaseTexture) : ℚ :=
  t.width * t.resolution

/-- The getter `BaseTexture.realHeight`: `height * resolution`. -/
def BaseTexture.realHeight (t : BaseTexture) : ℚ :=
  t.height * t.resolution

/-- The source method `BaseTexture.update()`: when not yet valid, become
valid (emitting `loaded` and `update`) only if both dimensions are
positive; when already valid, bump `dirtyId` and `dirtyStyleId` and emit
`update`. -/
def BaseTexture.update (t : BaseTexture) : BaseTexture × List TexEvent :=
  if !t.valid then
    if 0 < t.width ∧ 0 < t.height then
      ({ t with valid := true }, [TexEvent.loaded, TexEvent.update])
    else (t, [])
  else
    ({ t with dirtyId := t.dirtyId + 1, dirtyStyleId := t.dirtyStyleId + 1 },
      [TexEvent.update])

/-- The source method `BaseTexture.setSize(width, height, resolution)`:
`resolution || this.resolution`, store the new size, recompute
`isPowerOfTwo` from the real pixel size, then `update()`. -/
def BaseTexture.setSize (t : BaseTexture) (width height resolution : ℚ) :
    BaseTexture × List TexEvent :=
  let t := { t with resolution := if resolution = 0 then t.resolution else resolution }
  let t := { t with width := width, height := height }
  let t := { t with isPowerOfTwo := isPow2 t.realWidth && isPow2 t.realHeight }
  t.update

/-- The source constructor `new BaseTexture(null, { width, height })`
restricted to a `null` resource (so `setResource` is the identity):
default field initialisation, `Object.assign(this, options)`, then the
source line `this.setSize(this.height, this.width, this.resolution)` --
note the two dimension arguments are passed in swapped order.
`optResolution` is the merged `options.resolution`
(default `settings.RESOLUTION`). -/
def BaseTexture.new (optWidth optHeight optResolution : ℚ) :
    BaseTexture × List TexEvent :=
  let t : BaseTexture :=
    { width := optWidth, height := optHeight, resolution := optResolution
      isPowerOfTwo := false, valid := false
      dirtyId := 0, dirtyStyleId := 0, destroyed := false }
  t.setSize t.height t.width t.resolution

/-- State of `RenderTexture`, restricted to the fields its `resize`
writes: the `valid` flag and the frame/orig sizes.  The calls out to
`baseTexture.resize` and `updateUvs` touch collaborator state that the
claim does not observe. -/
structure RenderTexture where
  valid : Bool
  frameWidth : ℚ
  frameHeight : ℚ
  origWidth : ℚ
  origHeight : ℚ
deriving DecidableEq, Repr

/-- The source method `RenderTexture.resize(width, height, _)`: ceil both
dimensions, set `valid` to `width > 0 && height > 0`, store the frame and
orig sizes. -/
def RenderTexture.resize (rt : RenderTexture) (width height : ℚ) : RenderTexture :=
  let width : ℚ := (⌈width⌉ : ℤ)
  let height : ℚ := (⌈height⌉ : ℤ)
  { rt with
    valid := decide (0 < width) && decide (0 < height)
    frameWidth := width, origWidth := width
    frameHeight := height, origHeight := height }

/-- WebGL buffer-target enums (`BUFFER_TYPE` in the source; the numeric
values are the standard WebGL enum values). -/
def BUFFER_TYPE.ARRAY_BUFFER : ℕ := 34962

/-- WebGL enum `ELEMENT_ARRAY_BUFFER`. -/
def BUFFER_TYPE.ELEMENT_ARRAY_BUFFER : ℕ := 34963

/-- WebGL enum `UNIFORM_BUFFER`. -/
def BUFFER_TYPE.UNIFORM_BUFFER : ℕ := 35345

/-- WebGL enum `STATIC_DRAW`. -/
def GlConst.STATIC_DRAW : ℕ := 35044

/-- WebGL enum `DYNAMIC_DRAW`. -/
def GlConst.DYNAMIC_DRAW : ℕ := 35048

/-- Modelled from the spec: the `BufferUsage` flag constants (the shared
`buffer/const` module is not among the provided sources).  A Buffer
carries "a usage flag (vertex/index/uniform)"; the flags are WebGPU-style
disjoint bits, and only the bit tests against `INDEX`, `UNIFORM` and
`STATIC` are observable here. -/
def BufferUsage.INDEX : ℕ := 16

/-- Modelled from the spec: the `VERTEX` usage bit, see `BufferUsage.INDEX`. -/
def BufferUsage.VERTEX : ℕ := 32

/-- Modelled from the spec: the `UNIFORM` usage bit, see `BufferUsage.INDEX`. -/
def BufferUsage.UNIFORM : ℕ := 64

/-- Modelled from the spec: the `STATIC` usage bit, see `BufferUsage.INDEX`. -/
def BufferUsage.STATIC : ℕ := 1024

/-- State of one `GlBuffer` record: the backend handle, the bind target,
and the per-context last-synced `updateID` and allocated `byteLength`. -/
structure GlBuffer where
  buffer : ℕ
  type : ℕ
  updateID : ℤ
  byteLength : ℤ
deriving DecidableEq, Repr

/-- Modelled from the spec: the `GlBuffer` constructor (`GlBuffer.ts` is
not among the provided sources).  The spec requires the backend buffer
system to "track its own last-synced id per buffer"; a freshly created
backend record has synced nothing, so its `updateID` and `byteLength`
start at the sentinel `-1` and the first `updateBuffer` always uploads. -/
def GlBuffer.new (handle type : ℕ) : GlBuffer :=
  { buffer := handle, type := type, updateID := -1, byteLength := -1 }

/-- The face of the shared `Buffer` class that `GlBufferSystem` reads:
its uid, its CPU-side `_updateID`, its data byte length, the
`_updateSize` passed to partial uploads, and the usage flags from its
descriptor. -/
structure Buffer where
  uid : ℕ
  _updateID : ℕ
  dataByteLength : ℕ
  _updateSize : ℕ
  usage : ℕ
deriving DecidableEq, Repr

/-- A call made against the WebGL context by the buffer system. -/
inductive GlCall where
  | bindBuffer (type handle : ℕ)
  | bufferSubData (type offset : ℕ) (length : ℚ)
  | bufferData (type byteLength drawType : ℕ)
  | deleteBuffer (handle : ℕ)
  | createBuffer (handle : ℕ)
deriving DecidableEq, Repr

/-- The source method `GlBufferSystem.updateBuffer(buffer)` after the
`getGlBuffer` fetch: return immediately when the CPU `_updateID` equals
the backend record's `updateID`; otherwise record the new id, bind, and
either `bufferSubData` in place when the allocated byte length suffices
or `bufferData` (recording the new byte length) otherwise. -/
def GlBufferSystem.updateBuffer (glBuffer : GlBuffer) (buffer : Buffer) :
    GlBuffer × List GlCall :=
  if (buffer._updateID : ℤ) = glBuffer.updateID then
    (glBuffer, [])
  else
    let glBuffer := { glBuffer with updateID := (buffer._updateID : ℤ) }
    if glBuffer.byteLength ≥ (buffer.dataByteLength : ℤ) then
      (glBuffer,
        [GlCall.bindBuffer glBuffer.type glBuffer.buffer,
          GlCall.bufferSubData glBuffer.type 0 ((buffer._updateSize : ℚ) / 4)])
    else
      let drawType :=
        if buffer.usage &&& BufferUsage.STATIC ≠ 0 then GlConst.STATIC_DRAW
        else GlConst.DYNAMIC_DRAW
      ({ glBuffer with byteLength := (buffer.dataByteLength : ℤ) },
        [GlCall.bindBuffer glBuffer.type glBuffer.buffer,
          GlCall.bufferData glBuffer.type buffer.dataByteLength drawType])

/-- State of `GlBufferSystem`: the `_gpuBuffers` cache keyed by buffer
uid, plus a counter supplying fresh backend handles for
`gl.createBuffer()`. -/
structure GlBufferSystemState where
  gpuBuffers : List (ℕ × GlBuffer)
  nextHandle : ℕ
deriving DecidableEq, Repr

/-- Store a record in the uid-keyed cache, replacing any existing entry. -/
def assocSet (l : List (ℕ × GlBuffer)) (k : ℕ) (v : GlBuffer) : List (ℕ × GlBuffer) :=
  if (l.lookup k).isSome then
    l.map fun p => if p.1 = k then (k, v) else p
  else l ++ [(k, v)]

/-- The source method `GlBufferSystem.createGLBuffer(buffer)`: pick the
bind target from the usage flags, create a backend buffer, store the new
record in `_gpuBuffers`. -/
def GlBufferSystem.createGLBuffer (s : GlBufferSystemState) (buffer : Buffer) :
    GlBuffer × GlBufferSystemState × List GlCall :=
  let type :=
    if buffer.usage &&& BufferUsage.INDEX ≠ 0 then BUFFER_TYPE.ELEMENT_ARRAY_BUFFER
    else if buffer.usage &&& BufferUsage.UNIFORM ≠ 0 then BUFFER_TYPE.UNIFORM_BUFFER
    else BUFFER_TYPE.ARRAY_BUFFER
  let glBuffer := GlBuffer.new s.nextHandle type
  (glBuffer,
    { gpuBuffers := assocSet s.gpuBuffers buffer.uid glBuffer
      nextHandle := s.nextHandle + 1 },
    [GlCall.createBuffer s.nextHandle])

/-- The source method `GlBufferSystem.getGlBuffer(buffer)`: the cached
record, or a freshly created one. -/
def GlBufferSystem.getGlBuffer (s : GlBufferSystemState) (buffer : Buffer) :
    GlBuffer × GlBufferSystemState × List GlCall :=
  match s.gpuBuffers.lookup buffer.uid with
  | some g => (g, s, [])
  | none => GlBufferSystem.createGLBuffer s buffer

/-- The source method `GlBufferSystem.destroyAll(contextLost)`: delete
every cached backend buffer unless the context was lost, then empty the
cache. -/
def GlBufferSystem.destroyAll (s : GlBufferSystemState) (contextLost : Bool) :
    GlBufferSystemState × List GlCall :=
  let calls :=
    if !contextLost then s.gpuBuffers.map fun p => GlCall.deleteBuffer p.2.buffer
    else []
  ({ s with gpuBuffers := [] }, calls)

/-- The source method `GlBufferSystem.contextChange()`: `destroyAll(true)`
followed by re-reading the context handle (not part of the state). -/
def GlBufferSystem.contextChange (s : GlBufferSystemState) :
    GlBufferSystemState × List GlCall :=
  GlBufferSystem.destroyAll s true

/-- One 32-bit word of the shared batch attribute buffer: written either
through the `Float32Array` view or through the aliased `Uint32Array`
view. -/
inductive Word where
  | fl : ℚ → Word
  | ui : ℕ → Word
deriving DecidableEq, Repr

/-- Write one word of the attribute buffer. -/
def writeW (buf : ℕ → Word) (i : ℕ) (w : Word) : ℕ → Word :=
  fun j => if j = i then w else buf j

/-- The packed word `(textureId << 16) | (roundPixels & 0xFFFF)` computed
by both packing methods, reduced modulo `2 ^ 32` as stored through the
`Uint32Array` view. -/
def textureIdAndRound (textureId roundPixels : ℕ) : ℕ :=
  ((textureId <<< 16) ||| (roundPixels &&& 0xFFFF)) % 2 ^ 32

/-- The face of a `DefaultBatchableMeshElement` that `packAttributes`
reads: the transform snapshot, the position and uv arrays (indexed
views), the packed color, the round-pixels flag and the attribute
range. -/
structure BatchableMeshElement where
  transform : Matrix
  positions : ℕ → ℚ
  uvs : ℕ → ℚ
  color : ℕ
  roundPixels : ℕ
  attributeOffset : ℕ
  attributeSize : ℕ

/-- Write one six-word vertex record — transformed position, uv, packed
color, texture-id/round word — at buffer position `index`; the common
shape of the writes of both packing methods. -/
def writeVertexRecord (buf : ℕ → Word) (index : ℕ) (x y u v : ℚ)
    (argb tidWord : ℕ) : ℕ → Word :=
  writeW (writeW (writeW (writeW (writeW (writeW buf
    index (Word.fl x))
    (index + 1) (Word.fl y))
    (index + 2) (Word.fl u))
    (index + 3) (Word.fl v))
    (index + 4) (Word.ui argb))
    (index + 5) (Word.ui tidWord)

/-- One iteration of the `packAttributes` loop: write the six words of
vertex `i` of the element at buffer position `index`. -/
def packVertexAt (e : BatchableMeshElement) (tidWord i index : ℕ)
    (buf : ℕ → Word) : ℕ → Word :=
  let i2 := i * 2
  let x := e.positions i2
  let y := e.positions (i2 + 1)
  let wt := e.transform
  writeVertexRecord buf index
    ((wt.a * x) + (wt.c * y) + wt.tx)
    ((wt.d * y) + (wt.b * x) + wt.ty)
    (e.uvs i2) (e.uvs (i2 + 1)) e.color tidWord

/-- The `for (let i = offset; i < end; i++)` loop of `packAttributes`,
by recursion on the number of vertices left. -/
def packLoop (e : BatchableMeshElement) (tidWord : ℕ) :
    (ℕ → Word) → ℕ → ℕ → ℕ → (ℕ → Word)
  | buf, _, _, 0 => buf
  | buf, i, index, n + 1 =>
    packLoop e tidWord (packVertexAt e tidWord i index buf) (i + 1) (index + 6) n

/-- The source method `DefaultBatcher.packAttributes(element,
float32View, uint32View, index, textureId)`: for each vertex in the
element's attribute range write position (transformed by the element's
matrix), uv, packed color and the texture-id/round word. -/
def DefaultBatcher.packAttributes (e : BatchableMeshElement)
    (textureId index : ℕ) (buf : ℕ → Word) : ℕ → Word :=
  packLoop e (textureIdAndRound textureId e.roundPixels) buf
    e.attributeOffset index e.attributeSize

/-- The uv coordinates of the four corners of a texture frame, the
`texture.uvs` record read by `packQuadAttributes`. -/
structure TextureUvs where
  x0 : ℚ
  y0 : ℚ
  x1 : ℚ
  y1 : ℚ
  x2 : ℚ
  y2 : ℚ
  x3 : ℚ
  y3 : ℚ
deriving DecidableEq, Repr

/-- The face of a texture that the batcher reads: an identity for
texture-unit assignment and the frame uvs. -/
structure BatchTexture where
  uid : ℕ
  uvs : TextureUvs
deriving DecidableEq, Repr

/-- The local bounds record of a quad element. -/
structure QuadBounds where
  minX : ℚ
  minY : ℚ
  maxX : ℚ
  maxY : ℚ
deriving DecidableEq, Repr

/-- The face of a `DefaultBatchableQuadElement` that the batcher reads:
texture, transform snapshot, bounds, packed color, round-pixels flag and
the element's blend mode (read by the grouping loop). -/
structure BatchableQuadElement where
  texture : BatchTexture
  transform : Matrix
  bounds : QuadBounds
  color : ℕ
  roundPixels : ℕ
  blendMode : ℕ
deriving DecidableEq, Repr

/-- The source method `DefaultBatcher.packQuadAttributes(element,
float32View, uint32View, index, textureId)`: write the four corner
vertices `(minX,minY) (maxX,minY) (maxX,maxY) (minX,maxY)` of the
element's bounds, transformed, with the corner uvs, the packed color and
the texture-id/round word — 24 words in all. -/
def DefaultBatcher.packQuadAttributes (e : BatchableQuadElement)
    (textureId index : ℕ) (buf : ℕ → Word) : ℕ → Word :=
  let wt := e.transform
  let w0 := e.bounds.maxX
  let w1 := e.bounds.minX
  let h0 := e.bounds.maxY
  let h1 := e.bounds.minY
  let uvs := e.texture.uvs
  let argb := e.color
  let tidWord := textureIdAndRound textureId e.roundPixels
  writeVertexRecord (writeVertexRecord (writeVertexRecord (writeVertexRecord buf
    index
    ((wt.a * w1) + (wt.c * h1) + wt.tx) ((wt.d * h1) + (wt.b * w1) + wt.ty)
    uvs.x0 uvs.y0 argb tidWord)
    (index + 6)
    ((wt.a * w0) + (wt.c * h1) + wt.tx) ((wt.d * h1) + (wt.b * w0) + wt.ty)
    uvs.x1 uvs.y1 argb tidWord)
    (index + 12)
    ((wt.a * w0) + (wt.c * h0) + wt.tx) ((wt.d * h0) + (wt.b * w0) + wt.ty)
    uvs.x2 uvs.y2 argb tidWord)
    (index + 18)
    ((wt.a * w1) + (wt.c * h0) + wt.tx) ((wt.d * h0) + (wt.b * w1) + wt.ty)
    uvs.x3 uvs.y3 argb tidWord

/-- Modelled from the spec: the default (`normal`) blend-mode tag (the
blend-mode constants are not among the provided sources); the grouping
loop observes blend modes only up to equality. -/
def defaultBlendMode : ℕ := 0

/-- A finalized batch: its ordered texture-unit list, blend mode, and its
vertex/index range within the shared buffers. -/
structure Batch where
  textures : List ℕ
  blendMode : ℕ
  vertexStart : ℕ
  vertexCount : ℕ
  indexStart : ℕ
  indexCount : ℕ
deriving DecidableEq, Repr

/-- Modelled from the spec: the running state of the `Batcher` grouping
loop (the `Batcher` base class is not among the provided sources; only
`DefaultBatcher`'s packing methods are).  It tracks the finished batches,
the active batch's texture set, blend mode and start offsets, the running
vertex count, the shared index list and the shared attribute buffer. -/
structure BatcherState where
  finishedBatches : List Batch
  activeTextures : List ℕ
  activeBlend : ℕ
  activeVertexStart : ℕ
  activeIndexStart : ℕ
  vertexCount : ℕ
  indices : List ℕ
  buf : ℕ → Word

/-- Modelled from the spec: `begin()` resets the batcher state for a new
frame segment. -/
def Batcher.begin (initBuf : ℕ → Word) : BatcherState :=
  { finishedBatches := [], activeTextures := [], activeBlend := defaultBlendMode
    activeVertexStart := 0, activeIndexStart := 0, vertexCount := 0
    indices := [], buf := initBuf }

/-- Modelled from the spec: a flush boundary — when the active batch is
not empty, record its vertex/index range and texture list as one `Batch`
and start a new one. -/
def Batcher.breakBatch (st : BatcherState) : BatcherState :=
  if st.activeVertexStart < st.vertexCount then
    { st with
      finishedBatches := st.finishedBatches ++
        [{ textures := st.activeTextures, blendMode := st.activeBlend
           vertexStart := st.activeVertexStart
           vertexCount := st.vertexCount - st.activeVertexStart
           indexStart := st.activeIndexStart
           indexCount := st.indices.length - st.activeIndexStart }]
      activeTextures := []
      activeVertexStart := st.vertexCount
      activeIndexStart := st.indices.length }
  else st

/-- Modelled from the spec: texture-unit assignment — reuse the unit of a
texture already in the active set, else append it as a new unit. -/
def Batcher.assignTextureUnit (textures : List ℕ) (uid : ℕ) : ℕ × List ℕ :=
  match textures.indexOf? uid with
  | some i => (i, textures)
  | none => (textures.length, textures ++ [uid])

/-- Modelled from the spec: `add(element)` for a quad element.  Finalize
the active batch first when the element's blend mode differs from the
active batch's or its texture would exceed the unit budget; then assign
the texture a unit index, pack the four quad vertices through the source
method `DefaultBatcher.packQuadAttributes` (vertex stride 6 words), and
append the two-triangle indices `[0, 1, 2, 0, 2, 3]` offset by the
running vertex count. -/
def Batcher.addQuad (budget : ℕ) (st : BatcherState) (e : BatchableQuadElement) :
    BatcherState :=
  let st :=
    if st.activeVertexStart < st.vertexCount ∧
        (e.blendMode ≠ st.activeBlend ∨
          (e.texture.uid ∉ st.activeTextures ∧ budget ≤ st.activeTextures.length)) then
      Batcher.breakBatch st
    else st
  let st :=
    if st.activeVertexStart = st.vertexCount then { st with activeBlend := e.blendMode }
    else st
  let p := Batcher.assignTextureUnit st.activeTextures e.texture.uid
  let v := st.vertexCount
  { st with
    activeTextures := p.2
    buf := DefaultBatcher.packQuadAttributes e p.1 (v * 6) st.buf
    indices := st.indices ++ [v, v + 1, v + 2, v, v + 2, v + 3]
    vertexCount := v + 4 }

/-- Modelled from the spec: `finish()` flushes any remaining pending
elements as a final batch. -/
def Batcher.finish (st : BatcherState) : BatcherState :=
  Batcher.breakBatch st

/-- Modelled from the spec: one whole batching run over a sequence of
quad elements with the given texture-unit budget. -/
def Batcher.batchQuads (elements : List BatchableQuadElement) (budget : ℕ)
    (initBuf : ℕ → Word) : BatcherState :=
  Batcher.finish (elements.foldl (Batcher.addQuad budget) (Batcher.begin initBuf))

/-! Concrete instances used by witnesses and counterexamples. -/

/-- A transform whose world matrix is a pure translation by `(5, 15)`. -/
def translate515 : TransformBase :=
  { TransformBase.new true with
    worldTransform := { a := 1, b := 0, c := 0, d := 1, tx := 5, ty := 15 } }

/-- The base texture built by `new BaseTexture(null, {})`: both
dimensions default to `0`, so it is not valid. -/
def invalidTexture : BaseTexture :=
  (BaseTexture.new 0 0 1).1

/-- The base texture built by `new BaseTexture(null, { width: 10,
height: 20 })`: valid, with fresh dirty ids. -/
def validTexture : BaseTexture :=
  (BaseTexture.new 10 20 1).1

/-- An all-zero attribute buffer to pack into. -/
def zeroBuf : ℕ → Word :=
  fun _ => Word.ui 0

/-- A concrete quad element: texture uid 7, identity transform, a
`10 x 11` bounds box, opaque white color, default blend mode. -/
def sampleQuad : BatchableQuadElement :=
  { texture :=
      { uid := 7
        uvs := { x0 := 0, y0 := 0, x1 := 1, y1 := 0, x2 := 1, y2 := 1, x3 := 0, y3 := 1 } }
    transform := Matrix.identity
    bounds := { minX := 0, minY := 0, maxX := 10, maxY := 11 }
    color := 0xFFFFFFFF
    roundPixels := 0
    blendMode := defaultBlendMode }

/-- A concrete two-vertex mesh element whose position and uv arrays list
the natural numbers. -/
def sampleMesh : BatchableMeshElement :=
  { transform := Matrix.identity
    positions := fun i => (i : ℚ)
    uvs := fun i => (i : ℚ)
    color := 0xFFFFFFFF
    roundPixels := 1
    attributeOffset := 3
    attributeSize := 2 }

/-- A concrete backend buffer record, already synced to update id 5 with
16 bytes allocated. -/
def sampleGlBuffer : GlBuffer :=
  { buffer := 2, type := BUFFER_TYPE.ARRAY_BUFFER, updateID := 5, byteLength := 16 }

/-- A concrete CPU-side buffer at update id 5 with 16 data bytes. -/
def sampleBuffer : Buffer :=
  { uid := 1, _updateID := 5, dataByteLength := 16, _updateSize := 16
    usage := BufferUsage.VERTEX }

/-- An initial render texture record. -/
def sampleRenderTexture : RenderTexture :=
  { valid := false, frameWidth := 0, frameHeight := 0, origWidth := 0, origHeight := 0 }

/-! Theorems settling the claims. -/

/-- Claim C8: `addFrame` on cleared bounds with an identity world
transform and corners `(0,0)`-`(10,11)` yields the bounds
`minX = 0, minY = 0, maxX = 10, maxY = 11`; with a world transform that
is a pure translation by `(5, 15)` it yields
`minX = 5, minY = 15, maxX = 15, maxY = 26`. -/
theorem claim8_addFrame_identity_and_translation :
    BoundsBuilder.cleared.addFrame (TransformBase.new true) 0 0 10 11 =
      { minX := JsNum.num 0, minY := JsNum.num 0
        maxX := JsNum.num 10, maxY := JsNum.num 11 } ∧
    BoundsBuilder.cleared.addFrame translate515 0 0 10 11 =
      { minX := JsNum.num 5, minY := JsNum.num 15
        maxX := JsNum.num 15, maxY := JsNum.num 26 } := by
  constructor <;>
    norm_num [BoundsBuilder.addFrame, BoundsBuilder.accum, BoundsBuilder.cleared,
      JsNum.minUpd, JsNum.maxUpd, JsNum.ltNum, JsNum.gtNum,
      TransformBase.new, translate515, Matrix.identity]

/-- Claim C10: constructing a `BaseTexture` with options
`{width: w, height: h}` (and no resource) yields a texture with
`width = h` and `height = w`, because the constructor calls
`setSize(this.height, this.width, this.resolution)` with the dimension
arguments swapped. -/
theorem claim10_constructor_swaps_dimensions (w h r : ℚ) :
    ((BaseTexture.new w h r).1).width = h ∧ ((BaseTexture.new w h r).1).height = w := by
  unfold BaseTexture.new BaseTexture.setSize BaseTexture.update
  dsimp only
  split <;> split <;> simp_all

/-- Claim C9: on context change the buffer system invalidates its cache
without any backend delete: `destroyAll` with `contextLost = true`
empties the GPU-buffer cache and issues zero `deleteBuffer` calls, and a
subsequent `getGlBuffer` lazily creates a fresh backend buffer. -/
theorem claim9_context_loss_invalidates_without_delete
    (s : GlBufferSystemState) (b : Buffer) :
    GlBufferSystem.destroyAll s true = ({ s with gpuBuffers := [] }, []) ∧
    GlBufferSystem.contextChange s = ({ s with gpuBuffers := [] }, []) ∧
    (GlBufferSystem.getGlBuffer (GlBufferSystem.contextChange s).1 b).2.2 =
      [GlCall.createBuffer s.nextHandle] := by
  refine ⟨rfl, rfl, ?_⟩
  simp [GlBufferSystem.getGlBuffer, GlBufferSystem.contextChange,
    GlBufferSystem.destroyAll, GlBufferSystem.createGLBuffer]

/-- Claim C4 (code bug): the claim asserts a second `destroy()` on a
texture resource is a guarded no-op that does not throw; the source of
`Resource.destroy` sets the runners to `null` and never checks the
`destroyed` flag, so the second call dereferences `null` and throws.
This theorem evaluates the code at the failing input: the first destroy
succeeds, the second raises. -/
theorem claim4_second_destroy_throws :
    (Resource.destroy (Resource.new 8 8)).isOk = true ∧
    (Resource.destroy (Resource.new 8 8)).bind Resource.destroy =
      Except.error JsError.nullDeref := by
  constructor <;> rfl

/-- Claim C3: `updateBuffer` performs no GPU call when the buffer's
`_updateID` equals the backend record's `updateID`; when they differ it
records the new id and either uploads in place with `bufferSubData`
(leaving the recorded byte length unchanged) when the allocated byte
length is at least the data's byte length, or fully reallocates with
`bufferData` and records the new byte length otherwise. -/
theorem claim3_updateBuffer_sync (g : GlBuffer) (b : Buffer) :
    ((b._updateID : ℤ) = g.updateID → GlBufferSystem.updateBuffer g b = (g, [])) ∧
    ((b._updateID : ℤ) ≠ g.updateID →
      (GlBufferSystem.updateBuffer g b).1.updateID = (b._updateID : ℤ) ∧
      ((b.dataByteLength : ℤ) ≤ g.byteLength →
        (GlBufferSystem.updateBuffer g b).1.byteLength = g.byteLength ∧
        (GlBufferSystem.updateBuffer g b).2 =
          [GlCall.bindBuffer g.type g.buffer,
            GlCall.bufferSubData g.type 0 ((b._updateSize : ℚ) / 4)]) ∧
      (g.byteLength < (b.dataByteLength : ℤ) →
        (GlBufferSystem.updateBuffer g b).1.byteLength = (b.dataByteLength : ℤ) ∧
        (GlBufferSystem.updateBuffer g b).2 =
          [GlCall.bindBuffer g.type g.buffer,
            GlCall.bufferData g.type b.dataByteLength
              (if b.usage &&& BufferUsage.STATIC ≠ 0 then GlConst.STATIC_DRAW
               else GlConst.DYNAMIC_DRAW)])) := by
  constructor
  · intro h
    simp [GlBufferSystem.updateBuffer, h]
  · intro h
    refine ⟨?_, ?_, ?_⟩
    · simp only [GlBufferSystem.updateBuffer, if_neg h]
      split <;> rfl
    · intro hle
      simp [GlBufferSystem.updateBuffer, if_neg h, ge_iff_le, hle]
    · intro hlt
      simp [GlBufferSystem.updateBuffer, if_neg h, ge_iff_le, not_le.mpr hlt]

/-- Witness for claim C3, at concrete inputs: a buffer already synced at
id 5 triggers nothing; bumping the id to 6 with 16 of 16 bytes allocated
uploads in place; growing the data to 32 bytes reallocates. -/
theorem claim3_updateBuffer_sync_witness :
    GlBufferSystem.updateBuffer sampleGlBuffer sampleBuffer = (sampleGlBuffer, []) ∧
    (GlBufferSystem.updateBuffer sampleGlBuffer { sampleBuffer with _updateID := 6 }).2 =
      [GlCall.bindBuffer sampleGlBuffer.type sampleGlBuffer.buffer,
        GlCall.bufferSubData sampleGlBuffer.type 0 4] ∧
    (GlBufferSystem.updateBuffer sampleGlBuffer
        { sampleBuffer with _updateID := 6, dataByteLength := 32 }).1.byteLength = 32 := by
  refine ⟨?_, ?_, ?_⟩
  · exact (claim3_updateBuffer_sync sampleGlBuffer sampleBuffer).1 (by decide)
  · have h := ((claim3_updateBuffer_sync sampleGlBuffer
      { sampleBuffer with _updateID := 6 }).2 (by decide)).2.1 (by decide)
    rw [h.2]
    norm_num [sampleBuffer]
  · exact (((claim3_updateBuffer_sync sampleGlBuffer
      { sampleBuffer with _updateID := 6, dataByteLength := 32 }).2
        (by decide)).2.2 (by decide)).1

/-- Claim C5: resizing a texture source with positive dimensions makes it
valid; resizing with a zero dimension leaves or makes it invalid.  Stated
for `RenderTexture.resize` (which sets `valid` directly) and for
`Resource.resize` observed through the derived `valid` getter. -/
theorem claim5_resize_validity :
    (∀ (rt : RenderTexture) (w h : ℚ), 0 < w → 0 < h →
      (rt.resize w h).valid = true) ∧
    (∀ (rt : RenderTexture) (w h : ℚ), w = 0 ∨ h = 0 →
      (rt.resize w h).valid = false) ∧
    (∀ (r : Resource) (w h : ℚ) (out : Resource × List (ℕ × ℚ × ℚ)),
      Resource.resize r w h = Except.ok out →
      (0 < w → 0 < h → out.1.valid = true) ∧
      (w = 0 ∨ h = 0 → out.1.valid = false)) := by
  refine ⟨?_, ?_, ?_⟩
  · intro rt w h hw hh
    simp [RenderTexture.resize, Int.ceil_pos.mpr hw, Int.ceil_pos.mpr hh]
  · intro rt w h hzero
    rcases hzero with hz | hz <;> simp [RenderTexture.resize, hz]
  · intro r w h out hok
    have hkey : out.1._width = w ∧ out.1._height = h := by
      by_cases hchanged : w ≠ r._width ∨ h ≠ r._height
      · simp only [Resource.resize, if_pos hchanged] at hok
        cases hres : r.onResize with
        | none =>
          rw [hres] at hok
          simp [deref, Bind.bind, Except.bind] at hok
        | some l =>
          rw [hres] at hok
          simp only [deref, Bind.bind, Except.bind, Except.ok.injEq] at hok
          rw [← hok]
          exact ⟨rfl, rfl⟩
      · simp only [Resource.resize, if_neg hchanged, Except.ok.injEq] at hok
        obtain ⟨h1, h2⟩ := not_or.mp hchanged
        rw [not_ne_iff] at h1 h2
        rw [← hok]
        exact ⟨h1.symm, h2.symm⟩
    constructor
    · intro hw hh
      simp [Resource.valid, hkey.1, hkey.2, ne_of_gt hw, ne_of_gt hh]
    · intro hzero
      rcases hzero with hz | hz <;> simp [Resource.valid, hkey.1, hkey.2, hz]

/-- Witness for claim C5, at concrete inputs: resizing to `3 x 4` makes
the render texture valid, resizing to `0 x 4` makes it invalid, and a
resource resized to `5 x 6` becomes valid. -/
theorem claim5_resize_validity_witness :
    (sampleRenderTexture.resize 3 4).valid = true ∧
    (sampleRenderTexture.resize 0 4).valid = false ∧
    (Resource.mk 5 6 false (some []) (some [])).valid = true := by
  refine ⟨?_, ?_, ?_⟩
  · exact claim5_resize_validity.1 sampleRenderTexture 3 4 (by norm_num) (by norm_num)
  · exact claim5_resize_validity.2.1 sampleRenderTexture 0 4 (Or.inl rfl)
  · exact (claim5_resize_validity.2.2 (Resource.new 0 0) 5 6
      (Resource.mk 5 6 false (some []) (some []), []) rfl).1 (by norm_num) (by norm_num)

/-- Counterexample to claim C6: the claim says `update()` increments the
dirty id and notifies regardless of the source's state, but on a
not-yet-valid base texture with zero dimensions (the state produced by
`new BaseTexture(null, {})`, not destroyed) `update()` leaves `dirtyId`
unchanged and emits nothing. -/
theorem claim6_update_counterexample :
    invalidTexture.destroyed = false ∧
    invalidTexture.valid = false ∧
    ¬ (BaseTexture.update invalidTexture).1.dirtyId = invalidTexture.dirtyId + 1 ∧
    (BaseTexture.update invalidTexture).2 = [] := by
  refine ⟨rfl, ?_, ?_, ?_⟩ <;> decide

/-- Claim C6 as amended: on a texture source that is currently valid,
`update()` increments `dirtyId` and `dirtyStyleId` and emits an update
event; and `Resource.update()` notifies its bound listeners whenever the
resource is not destroyed.  On a not-yet-valid texture `update()`
instead only validates (see the counterexample). -/
theorem claim6_update_increments_when_valid :
    (∀ t : BaseTexture, t.valid = true →
      (BaseTexture.update t).1.dirtyId = t.dirtyId + 1 ∧
      (BaseTexture.update t).1.dirtyStyleId = t.dirtyStyleId + 1 ∧
      (BaseTexture.update t).2 = [TexEvent.update]) ∧
    (∀ (r : Resource) (l : List ℕ), r.destroyed = false → r.onUpdate = some l →
      Resource.update r = Except.ok l) := by
  constructor
  · intro t hvalid
    simp [BaseTexture.update, hvalid]
  · intro r l hdestroyed hupd
    simp [Resource.update, hdestroyed, hupd, deref, Bind.bind, Except.bind]

/-- Witness for the amended claim C6, at concrete inputs: a valid base
texture sees its `dirtyId` go from 0 to 1 and an update event; a live
resource notifies its bound listener 3. -/
theorem claim6_update_increments_when_valid_witness :
    (BaseTexture.update validTexture).1.dirtyId = validTexture.dirtyId + 1 ∧
    Resource.update (Resource.mk 4 4 false (some []) (some [3])) = Except.ok [3] := by
  constructor
  · exact (claim6_update_increments_when_valid.1 validTexture (by decide)).1
  · exact claim6_update_increments_when_valid.2
      (Resource.mk 4 4 false (some []) (some [3])) [3] rfl rfl

/-- Counterexample to claim C7: the claim says `updateTransform` leaves
the world matrix and `_worldID` alone whenever `_localID` equals
`_currentLocalID` and `_parentID` equals the parent's `_worldID`; a
transform constructed with `cache = false` satisfies both id equalities
yet still gets its `_worldID` bumped. -/
theorem claim7_updateTransform_counterexample :
    (TransformBase.new false)._localID = (TransformBase.new false)._currentLocalID ∧
    (TransformBase.new false)._parentID = ((TransformBase.new true)._worldID : ℤ) ∧
    ¬ ((TransformBase.new false).updateTransform (TransformBase.new true))._worldID =
      (TransformBase.new false)._worldID := by
  refine ⟨rfl, rfl, ?_⟩
  decide

/-- The local step keeps the cache flag. -/
theorem updateLocalStep_cache (t : TransformBase) : t.updateLocalStep.cache = t.cache := by
  rw [TransformBase.updateLocalStep]
  split <;> rfl

/-- The local step never touches `_worldID`. -/
theorem updateLocalStep_worldID (t : TransformBase) :
    t.updateLocalStep._worldID = t._worldID := by
  rw [TransformBase.updateLocalStep]
  split <;> rfl

/-- When the local id moved, the local step sets the force-update
sentinel `_parentID = -1`. -/
theorem updateLocalStep_parentID_of_ne (t : TransformBase)
    (h : t._localID ≠ t._currentLocalID) : t.updateLocalStep._parentID = -1 := by
  rw [TransformBase.updateLocalStep, if_pos (Or.inr h)]

/-- A caching transform with an unmoved local id skips the local step. -/
theorem updateLocalStep_eq_self (t : TransformBase) (hcache : t.cache = true)
    (h : t._localID = t._currentLocalID) : t.updateLocalStep = t := by
  rw [TransformBase.updateLocalStep, if_neg]
  rintro (hc | hl)
  · exact absurd hc (by simp [hcache])
  · exact hl h

/-- Claim C7 as amended: for a caching transform (`cache = true`),
`updateTransform` leaves the node entirely unchanged (world matrix and
`_worldID` included) when `_localID = _currentLocalID` and `_parentID`
equals the parent's `_worldID`; when either id changed it recomposes the
world matrix as the local matrix concatenated with the parent's world
matrix and increments `_worldID`.  A transform with `cache = false`
recomposes unconditionally. -/
theorem claim7_updateTransform_gated (t p : TransformBase) (hcache : t.cache = true) :
    ((t._localID = t._currentLocalID ∧ t._parentID = (p._worldID : ℤ)) →
      t.updateTransform p = t) ∧
    ((t._localID ≠ t._currentLocalID ∨ t._parentID ≠ (p._worldID : ℤ)) →
      (t.updateTransform p)._worldID = t._worldID + 1 ∧
      (t.updateTransform p).worldTransform =
        Matrix.concatWorld (t.updateTransform p).localTransform p.worldTransform) := by
  constructor
  · rintro ⟨hlocal, hparent⟩
    simp only [TransformBase.updateTransform]
    rw [updateLocalStep_eq_self t hcache hlocal]
    rw [if_neg]
    rintro (hc | hp)
    · exact absurd hc (by simp [hcache])
    · exact hp hparent
  · intro hchanged
    simp only [TransformBase.updateTransform]
    by_cases hlocal : t._localID = t._currentLocalID
    · have hparent : t._parentID ≠ (p._worldID : ℤ) := by
        rcases hchanged with hl | hp
        · exact absurd hlocal hl
        · exact hp
      rw [updateLocalStep_eq_self t hcache hlocal]
      rw [if_pos (Or.inr hparent)]
      exact ⟨rfl, rfl⟩
    · rw [if_pos (Or.inr (by
        rw [updateLocalStep_parentID_of_ne t hlocal]
        omega))]
      refine ⟨?_, rfl⟩
      simp only
      rw [updateLocalStep_worldID]

/-- Witness for the amended claim C7, at concrete inputs: a fresh cached
transform is left unchanged by `updateTransform` against a fresh parent;
the same transform with its `_localID` bumped gets `_worldID` 1. -/
theorem claim7_updateTransform_gated_witness :
    (TransformBase.new true).updateTransform (TransformBase.new true) =
      TransformBase.new true ∧
    (({ TransformBase.new true with _localID := 1 }).updateTransform
        (TransformBase.new true))._worldID =
      ({ TransformBase.new true with _localID := 1 } : TransformBase)._worldID + 1 := by
  constructor
  · exact (claim7_updateTransform_gated (TransformBase.new true)
      (TransformBase.new true) rfl).1 ⟨rfl, rfl⟩
  · exact ((claim7_updateTransform_gated { TransformBase.new true with _localID := 1 }
      (TransformBase.new true) rfl).2 (Or.inl (by decide))).1

/-- Writing elsewhere leaves a buffer word unchanged. -/
theorem writeW_ne (buf : ℕ → Word) (i : ℕ) (w : Word) (p : ℕ) (h : p ≠ i) :
    writeW buf i w p = buf p :=
  if_neg h

/-- A vertex record leaves every word outside its six-word region
unchanged. -/
theorem writeVertexRecord_outside (buf : ℕ → Word) (index : ℕ) (x y u v : ℚ)
    (argb tw : ℕ) (p : ℕ) (h : p < index ∨ index + 6 ≤ p) :
    writeVertexRecord buf index x y u v argb tw p = buf p := by
  simp only [writeVertexRecord, writeW]
  split_ifs <;> first | rfl | omega

/-- The six words of a vertex record, by offset. -/
theorem writeVertexRecord_get (buf : ℕ → Word) (index : ℕ) (x y u v : ℚ)
    (argb tw : ℕ) :
    writeVertexRecord buf index x y u v argb tw index = Word.fl x ∧
    writeVertexRecord buf index x y u v argb tw (index + 1) = Word.fl y ∧
    writeVertexRecord buf index x y u v argb tw (index + 2) = Word.fl u ∧
    writeVertexRecord buf index x y u v argb tw (index + 3) = Word.fl v ∧
    writeVertexRecord buf index x y u v argb tw (index + 4) = Word.ui argb ∧
    writeVertexRecord buf index x y u v argb tw (index + 5) = Word.ui tw := by
  refine ⟨?_, ?_, ?_, ?_, ?_, ?_⟩ <;>
    (simp only [writeVertexRecord, writeW]
     split_ifs <;> first | rfl | omega)

/-- The quad packer touches nothing outside its 24-word (four-vertex)
region. -/
theorem packQuadAttributes_frame (e : BatchableQuadElement) (tid idx : ℕ)
    (buf : ℕ → Word) (p : ℕ) (h : p < idx ∨ idx + 24 ≤ p) :
    DefaultBatcher.packQuadAttributes e tid idx buf p = buf p := by
  simp only [DefaultBatcher.packQuadAttributes]
  rw [writeVertexRecord_outside, writeVertexRecord_outside,
    writeVertexRecord_outside, writeVertexRecord_outside] <;> omega

/-- Each of the four vertex records the quad packer writes carries the
packed color in word 4 and the texture-id/round word in word 5. -/
theorem packQuadAttributes_vertexWords (e : BatchableQuadElement) (tid idx : ℕ)
    (buf : ℕ → Word) (v : ℕ) (h : v < 4) :
    DefaultBatcher.packQuadAttributes e tid idx buf (idx + 6 * v + 4) = Word.ui e.color ∧
    DefaultBatcher.packQuadAttributes e tid idx buf (idx + 6 * v + 5) =
      Word.ui (textureIdAndRound tid e.roundPixels) := by
  simp only [DefaultBatcher.packQuadAttributes]
  interval_cases v
  · constructor <;>
      (rw [writeVertexRecord_outside, writeVertexRecord_outside,
          writeVertexRecord_outside] <;> try omega)
    · norm_num
      exact (writeVertexRecord_get _ _ _ _ _ _ _ _).2.2.2.2.1
    · norm_num
      exact (writeVertexRecord_get _ _ _ _ _ _ _ _).2.2.2.2.2
  · constructor <;>
      (rw [writeVertexRecord_outside, writeVertexRecord_outside] <;> try omega)
    · rw [show idx + 6 * 1 + 4 = (idx + 6) + 4 by omega]
      exact (writeVertexRecord_get _ _ _ _ _ _ _ _).2.2.2.2.1
    · rw [show idx + 6 * 1 + 5 = (idx + 6) + 5 by omega]
      exact (writeVertexRecord_get _ _ _ _ _ _ _ _).2.2.2.2.2
  · constructor <;>
      (rw [writeVertexRecord_outside] <;> try omega)
    · rw [show idx + 6 * 2 + 4 = (idx + 12) + 4 by omega]
      exact (writeVertexRecord_get _ _ _ _ _ _ _ _).2.2.2.2.1
    · rw [show idx + 6 * 2 + 5 = (idx + 12) + 5 by omega]
      exact (writeVertexRecord_get _ _ _ _ _ _ _ _).2.2.2.2.2
  · constructor
    · rw [show idx + 6 * 3 + 4 = (idx + 18) + 4 by omega]
      exact (writeVertexRecord_get _ _ _ _ _ _ _ _).2.2.2.2.1
    · rw [show idx + 6 * 3 + 5 = (idx + 18) + 5 by omega]
      exact (writeVertexRecord_get _ _ _ _ _ _ _ _).2.2.2.2.2

/-- The packing loop touches no buffer word before its start index. -/
theorem packLoop_untouched (e : BatchableMeshElement) (tw : ℕ) :
    ∀ (n : ℕ) (buf : ℕ → Word) (i index p : ℕ), p < index →
      packLoop e tw buf i index n p = buf p := by
  intro n
  induction n with
  | zero =>
    intro buf i index p hp
    rfl
  | succ n ih =>
    intro buf i index p hp
    simp only [packLoop]
    rw [ih _ _ _ _ (by omega)]
    simp only [packVertexAt, writeVertexRecord, writeW]
    split_ifs <;> first | rfl | omega

/-- Unrolled contents of the packing loop: vertex `j` of a run of `n`
vertices starting at array position `i` and buffer position `index`
occupies the six words at `index + 6 * j`, holding the transformed
position of source vertex `i + j`, its uvs, the color and the
texture-id/round word. -/
theorem packLoop_get (e : BatchableMeshElement) (tw : ℕ) :
    ∀ (n j : ℕ) (buf : ℕ → Word) (i index : ℕ), j < n →
      packLoop e tw buf i index n (index + 6 * j) =
        Word.fl ((e.transform.a * e.positions ((i + j) * 2)) +
          (e.transform.c * e.positions ((i + j) * 2 + 1)) + e.transform.tx) ∧
      packLoop e tw buf i index n (index + 6 * j + 1) =
        Word.fl ((e.transform.d * e.positions ((i + j) * 2 + 1)) +
          (e.transform.b * e.positions ((i + j) * 2)) + e.transform.ty) ∧
      packLoop e tw buf i index n (index + 6 * j + 2) =
        Word.fl (e.uvs ((i + j) * 2)) ∧
      packLoop e tw buf i index n (index + 6 * j + 3) =
        Word.fl (e.uvs ((i + j) * 2 + 1)) ∧
      packLoop e tw buf i index n (index + 6 * j + 4) = Word.ui e.color ∧
      packLoop e tw buf i index n (index + 6 * j + 5) = Word.ui tw := by
  intro n
  induction n with
  | zero =>
    intro j buf i index hj
    exact absurd hj (Nat.not_lt_zero j)
  | succ n ih =>
    intro j buf i index hj
    match j with
    | 0 =>
      simp only [packLoop, Nat.mul_zero, Nat.add_zero]
      refine ⟨?_, ?_, ?_, ?_, ?_, ?_⟩ <;>
        (rw [packLoop_untouched e tw n _ _ _ _ (by omega)]
         simp only [packVertexAt, writeVertexRecord, writeW]
         split_ifs <;> first | rfl | omega)
    | j' + 1 =>
      simp only [packLoop]
      have h := ih j' (packVertexAt e tw i index buf) (i + 1) (index + 6) (by omega)
      have e1 : index + 6 + 6 * j' = index + 6 * (j' + 1) := by ring
      have e2 : i + 1 + j' = i + (j' + 1) := by omega
      rw [e1, e2] at h
      exact h

/-- The word `(textureId << 16) | (roundPixels & 0xFFFF)` equals the
claim's `(textureId << 16) | roundPixels` for a 0/1 round-pixels flag and
a texture unit index below `2 ^ 15` (no 32-bit wrap). -/
theorem textureIdAndRound_eq (tid rp : ℕ) (hrp : rp ≤ 1) (htid : tid < 32768) :
    textureIdAndRound tid rp = (tid <<< 16) ||| rp := by
  have hand : rp &&& 0xFFFF = rp := by
    interval_cases rp <;> rfl
  have hshift : tid <<< 16 < 2 ^ 32 := by
    rw [Nat.shiftLeft_eq]
    norm_num
    omega
  have hlt : (tid <<< 16) ||| rp < 2 ^ 32 :=
    Nat.or_lt_two_pow hshift (by omega)
  rw [textureIdAndRound, hand]
  exact Nat.mod_eq_of_lt hlt

/-- Claim C2: for every batchable mesh element, `packAttributes` writes
for vertex `j` of the element's attribute range exactly six words in
order at `index + 6 * j`: the position transformed by the element's
matrix (`x = a*x + c*y + tx`, `y = d*y + b*x + ty`), the uvs, the packed
color, and `(textureId << 16) | roundPixels`. -/
theorem claim2_packAttributes_layout (e : BatchableMeshElement)
    (textureId index : ℕ) (buf : ℕ → Word) (j : ℕ)
    (hj : j < e.attributeSize) (hrp : e.roundPixels ≤ 1) (htid : textureId < 32768) :
    DefaultBatcher.packAttributes e textureId index buf (index + 6 * j) =
      Word.fl ((e.transform.a * e.positions ((e.attributeOffset + j) * 2)) +
        (e.transform.c * e.positions ((e.attributeOffset + j) * 2 + 1)) +
        e.transform.tx) ∧
    DefaultBatcher.packAttributes e textureId index buf (index + 6 * j + 1) =
      Word.fl ((e.transform.d * e.positions ((e.attributeOffset + j) * 2 + 1)) +
        (e.transform.b * e.positions ((e.attributeOffset + j) * 2)) +
        e.transform.ty) ∧
    DefaultBatcher.packAttributes e textureId index buf (index + 6 * j + 2) =
      Word.fl (e.uvs ((e.attributeOffset + j) * 2)) ∧
    DefaultBatcher.packAttributes e textureId index buf (index + 6 * j + 3) =
      Word.fl (e.uvs ((e.attributeOffset + j) * 2 + 1)) ∧
    DefaultBatcher.packAttributes e textureId index buf (index + 6 * j + 4) =
      Word.ui e.color ∧
    DefaultBatcher.packAttributes e textureId index buf (index + 6 * j + 5) =
      Word.ui ((textureId <<< 16) ||| e.roundPixels) := by
  have h := packLoop_get e (textureIdAndRound textureId e.roundPixels)
    e.attributeSize j buf e.attributeOffset index hj
  rw [textureIdAndRound_eq textureId e.roundPixels hrp htid] at h
  have hdef : DefaultBatcher.packAttributes e textureId index buf =
      packLoop e ((textureId <<< 16) ||| e.roundPixels) buf
        e.attributeOffset index e.attributeSize := by
    simp only [DefaultBatcher.packAttributes,
      textureIdAndRound_eq textureId e.roundPixels hrp htid]
  rw [hdef]
  exact h

/-- Witness for claim C2, at a concrete input: vertex 1 of the two-vertex
sample mesh (attribute offset 3, so source vertex 4) lands at words 6-11
with its positions, uvs, color and `(5 << 16) | 1`. -/
theorem claim2_packAttributes_layout_witness :
    DefaultBatcher.packAttributes sampleMesh 5 0 zeroBuf 6 =
      Word.fl ((sampleMesh.transform.a * sampleMesh.positions 8) +
        (sampleMesh.transform.c * sampleMesh.positions 9) + sampleMesh.transform.tx) ∧
    DefaultBatcher.packAttributes sampleMesh 5 0 zeroBuf 11 =
      Word.ui ((5 <<< 16) ||| 1) := by
  have h := claim2_packAttributes_layout sampleMesh 5 0 zeroBuf 1
    (by decide) (by decide) (by decide)
  exact ⟨h.1, h.2.2.2.2.2⟩

/-- Adding one quad element to a fresh batcher packs its four vertices at
buffer position 0 through texture unit 0 and appends the six quad
indices. -/
theorem addQuad_fresh (e : BatchableQuadElement) (budget : ℕ) (initBuf : ℕ → Word) :
    Batcher.addQuad budget (Batcher.begin initBuf) e =
      { finishedBatches := []
        activeTextures := [e.texture.uid]
        activeBlend := e.blendMode
        activeVertexStart := 0
        activeIndexStart := 0
        vertexCount := 4
        indices := [0, 1, 2, 0, 2, 3]
        buf := DefaultBatcher.packQuadAttributes e 0 0 initBuf } := by
  simp [Batcher.addQuad, Batcher.begin, Batcher.assignTextureUnit, Batcher.breakBatch]

/-- Claim C1: batching a single quad element with the default blend mode
and a texture-unit budget of at least 1 produces exactly one batch, with
exactly 4 packed vertices and the 6 two-triangle indices
`[0, 1, 2, 0, 2, 3]`; and `packQuadAttributes` writes exactly four
six-word vertex records for one quad element — every word outside its
24-word region is untouched, and each of the four records carries the
element's packed data. -/
theorem claim1_single_quad_one_batch (e : BatchableQuadElement) (budget : ℕ)
    (initBuf : ℕ → Word) (hbudget : 1 ≤ budget)
    (hblend : e.blendMode = defaultBlendMode) :
    (Batcher.batchQuads [e] budget initBuf).finishedBatches =
      [{ textures := [e.texture.uid], blendMode := defaultBlendMode
         vertexStart := 0, vertexCount := 4, indexStart := 0, indexCount := 6 }] ∧
    (Batcher.batchQuads [e] budget initBuf).vertexCount = 4 ∧
    (Batcher.batchQuads [e] budget initBuf).indices = [0, 1, 2, 0, 2, 3] ∧
    (Batcher.batchQuads [e] budget initBuf).buf =
      DefaultBatcher.packQuadAttributes e 0 0 initBuf ∧
    (∀ (e2 : BatchableQuadElement) (tid idx : ℕ) (buf : ℕ → Word) (p : ℕ),
      p < idx ∨ idx + 24 ≤ p →
      DefaultBatcher.packQuadAttributes e2 tid idx buf p = buf p) ∧
    (∀ (e2 : BatchableQuadElement) (tid idx : ℕ) (buf : ℕ → Word) (v : ℕ),
      v < 4 →
      DefaultBatcher.packQuadAttributes e2 tid idx buf (idx + 6 * v + 4) =
        Word.ui e2.color ∧
      DefaultBatcher.packQuadAttributes e2 tid idx buf (idx + 6 * v + 5) =
        Word.ui (textureIdAndRound tid e2.roundPixels)) := by
  have hrun : Batcher.batchQuads [e] budget initBuf =
      Batcher.breakBatch (Batcher.addQuad budget (Batcher.begin initBuf) e) := rfl
  rw [hrun, addQuad_fresh]
  refine ⟨?_, ?_, ?_, ?_, ?_, ?_⟩
  · simp [Batcher.breakBatch, hblend]
  · simp [Batcher.breakBatch]
  · simp [Batcher.breakBatch]
  · simp [Batcher.breakBatch]
  · exact fun e2 tid idx buf p hp => packQuadAttributes_frame e2 tid idx buf p hp
  · exact fun e2 tid idx buf v hv => packQuadAttributes_vertexWords e2 tid idx buf v hv

/-- Witness for claim C1, at a concrete input: the sample quad with
budget 1 yields one batch of 4 vertices and indices `[0,1,2,0,2,3]`. -/
theorem claim1_single_quad_one_batch_witness :
    (Batcher.batchQuads [sampleQuad] 1 zeroBuf).finishedBatches =
      [{ textures := [7], blendMode := defaultBlendMode
         vertexStart := 0, vertexCount := 4, indexStart := 0, indexCount := 6 }] ∧
    (Batcher.batchQuads [sampleQuad] 1 zeroBuf).indices = [0, 1, 2, 0, 2, 3] := by
  have h := claim1_single_quad_one_batch sampleQuad 1 zeroBuf (by decide) rfl
  exact ⟨h.1, h.2.2.1⟩

end PixiProof

